import Mathlib

/-!
Verification of the speech-recorder utilities (src/transcriber.py and
src/old_tkinter_transcriber.py) against their specification.

Python floats are modelled as exact rationals (ℚ), Python strings as
Lean strings, JSON collections as Lean lists.  The GUI layer (widgets,
clipboard, logging) is out of scope per the spec; the embedding keeps the
core state machine, the ledger operations and the audio encoding exactly
as the source computes them.
-/

namespace SpeechRecorder

/-- Constant `COST_PER_MINUTE = 0.006` from both source files. -/
def COST_PER_MINUTE : ℚ := 6 / 1000

/-- Constant sample rate 44100 from both source files
(`SAMPLERATE` in transcriber.py, `SAMPLE_RATE` in old_tkinter_transcriber.py). -/
def SAMPLE_RATE : ℕ := 44100

/-- A record of `transcription_history.json`.  `duration` is `Option`al
because the stored schema tolerates entries written by older versions that
lack the field (both display functions guard for its absence). -/
structure HistoryEntry where
  timestamp : String
  duration : Option ℚ
  transcription : String
  deriving DecidableEq

/-- A record of `transactions.json`, as written by `save_transaction`
in both files. -/
structure TransactionEntry where
  timestamp : String
  duration : ℚ
  cost : ℚ
  deriving DecidableEq

/-- The ledger append of `save_to_history` (transcriber.py lines 119-129,
old_tkinter_transcriber.py lines 218-223): load the collection, append one
entry holding timestamp, duration and transcription, rewrite wholesale. -/
def save_to_history (history : List HistoryEntry) (timestamp transcription : String)
    (duration : ℚ) : List HistoryEntry :=
  history ++ [{ timestamp := timestamp, duration := some duration,
                transcription := transcription }]

/-- The ledger append of `save_transaction` (transcriber.py lines 158-165,
old_tkinter_transcriber.py lines 242-249): append one entry with
`cost = duration * COST_PER_MINUTE`. -/
def save_transaction (transactions : List TransactionEntry) (timestamp : String)
    (duration : ℚ) : List TransactionEntry :=
  transactions ++ [{ timestamp := timestamp, duration := duration,
                     cost := duration * COST_PER_MINUTE }]

/-- `calculate_totals` (transcriber.py lines 177-181; the identical fold also
appears inline in old_tkinter_transcriber.py `update_cost_display` lines
257-261).  Python `sum(...)` is a left fold starting from 0; the function
returns the pair `(total_cost, total_time)`. -/
def calculate_totals (transactions : List TransactionEntry) : ℚ × ℚ :=
  (transactions.foldl (fun acc t => acc + t.cost) 0,
   transactions.foldl (fun acc t => acc + t.duration) 0)

/-- Round half to even, the rounding used by Python `format(x, ".2f")`
(modulo binary-float artifacts, irrelevant to the claims checked here). -/
def roundHalfEven (q : ℚ) : ℤ :=
  if q - ⌊q⌋ < 1 / 2 then ⌊q⌋
  else if q - ⌊q⌋ > 1 / 2 then ⌊q⌋ + 1
  else if 2 ∣ ⌊q⌋ then ⌊q⌋ else ⌊q⌋ + 1

/-- Left-pad a two-digit fractional part. -/
def pad2 (n : ℕ) : String :=
  if n < 10 then "0" ++ toString n else toString n

/-- Model of the Python f-string piece `f"{d:.2f}"` applied to a float. -/
def formatRat2 (q : ℚ) : String :=
  let n := roundHalfEven (q * 100)
  (if n < 0 then "-" else "") ++ toString (n.natAbs / 100) ++ "." ++ pad2 (n.natAbs % 100)

/-- One line of the history display (transcriber.py lines 144-154,
old_tkinter_transcriber.py lines 234-240).  An entry whose duration field
is present renders it to two decimals inside the parenthesised
duration marker; an entry lacking the field renders as `(Duration: N/A)`;
both variants then emit the timestamp, the duration marker, a colon, the
transcription and a blank line. -/
def render_entry (e : HistoryEntry) : String :=
  let duration_str := match e.duration with
    | some d => "(Duration: " ++ formatRat2 d ++ " min)"
    | none => "(Duration: N/A)"
  e.timestamp ++ " " ++ duration_str ++ ":\n" ++ e.transcription ++ "\n\n"

/-- `update_history_display` in both files: iterate over `reversed(history)`
and insert each rendered entry into the text box.  The displayed content is
modelled as the list of inserted strings, in insertion order. -/
def update_history_display (history : List HistoryEntry) : List String :=
  history.reverse.map render_entry

/-- Failure of the capture/stop path.  `emptyCapture` models the `ValueError`
that `np.concatenate` raises when the list of captured blocks is empty
(spec taxonomy name: `EmptyCaptureError`). -/
inductive CaptureError
  | emptyCapture
  deriving DecidableEq

/-- Failure modes of the remote transcription call (spec taxonomy §7);
the source catches any exception from `client.audio.transcriptions.create`. -/
inductive TranscribeError
  | network
  | auth
  | service
  deriving DecidableEq

/-- The message text built by both error handlers: `f"An error occurred: {e}"`. -/
def errMessage : TranscribeError → String
  | .network => "An error occurred: NetworkError"
  | .auth => "An error occurred: AuthError"
  | .service => "An error occurred: ServiceError"

/-- Truncation toward zero, the conversion performed by numpy
`astype(int16)` on a float value (C-style cast). -/
def truncQ (q : ℚ) : ℤ :=
  if 0 ≤ q then ⌊q⌋ else ⌈q⌉

/-- Wrap an integer into the twos-complement int16 range, as numpy storage
does.  For inputs already in `[-32768, 32767]` this is the identity. -/
def toInt16 (n : ℤ) : ℤ :=
  (n + 32768) % 65536 - 32768

/-- The encoding step of transcriber.py line 70:
`(audio_data * 32767).astype(int16)` applied to one float sample. -/
def encodeSample (x : ℚ) : ℤ :=
  toInt16 (truncQ (x * 32767))

/-- Modelled from the spec: decoding a stored 16-bit PCM value back to a
float sample (the source only writes the WAV file and never reads it back;
§4.1 and §8 of the spec describe the quantization round-trip). -/
def decodeSample (v : ℤ) : ℚ :=
  (v : ℚ) / 32767

namespace Transcriber

/-- What `stop_recording` in transcriber.py hands onward: the duration (in
minutes) passed to `transcribe_audio`, and the int16 samples written to the
WAV file. -/
structure StopResult where
  duration : ℚ
  samples : List ℤ
  deriving DecidableEq

/-- `stop_recording` of transcriber.py (lines 54-79): the duration is the
wall-clock elapsed time `(recording_end_time - recording_start_time)` in
minutes (line 61); the captured frames are concatenated (line 64, raising
when no block was captured) and encoded to int16 (line 70).  `startTime`
and `endTime` are the two wall-clock instants in seconds. -/
def stop_recording (startTime endTime : ℚ) (audio_frames : List (List ℚ)) :
    Except CaptureError StopResult :=
  let duration := (endTime - startTime) / 60
  if audio_frames = [] then .error .emptyCapture
  else .ok { duration := duration,
             samples := audio_frames.flatten.map encodeSample }

end Transcriber

namespace OldTk

/-- The values of `self.state` in old_tkinter_transcriber.py. -/
inductive PyState
  | ready
  | recording
  | processing
  deriving DecidableEq

/-- The mutable fields of `AudioRecorderApp` that the core state machine
reads and writes (widgets, queue and API client are presentation plumbing). -/
structure App where
  state : PyState
  audio_data : List (List ℚ)
  history : List HistoryEntry
  transactions : List TransactionEntry
  last_click_time : ℚ
  deriving DecidableEq

/-- `audio_callback` (line 151-152): append the incoming block. -/
def audio_callback (app : App) (indata : List ℚ) : App :=
  { app with audio_data := app.audio_data ++ [indata] }

/-- `start_recording` (lines 142-149): clear the buffer, open the stream,
set state to `recording`. -/
def start_recording (app : App) : App :=
  { app with audio_data := [], state := .recording }

/-- `stop_recording` (lines 154-162): stop the stream, set state to
`processing` and hand off to the background `process_audio` thread. -/
def stop_recording (app : App) : App :=
  { app with state := .processing }

/-- `self.click_cooldown = 0.5` (line 79). -/
def click_cooldown : ℚ := 1 / 2

/-- `toggle_recording` (lines 127-140): ignore the click while within the
cooldown window; otherwise record the click time and dispatch on the current
state — `recording` stops, `ready` starts, anything else only logs a
warning. -/
def toggle_recording (now : ℚ) (app : App) : App :=
  if now - app.last_click_time < click_cooldown then app
  else
    let app2 := { app with last_click_time := now }
    match app2.state with
    | .recording => stop_recording app2
    | .ready => start_recording app2
    | .processing => app2

/-- The externally visible effects of one `transcribe_audio` call. -/
structure TranscribeOutcome where
  app : App
  errorsShown : List (String × String)
  statusUpdates : List String
  deriving DecidableEq

/-- `transcribe_audio` (lines 171-198).  On success: append to history
(line 183) then to transactions (line 184), publish the text, finally
re-enable the button, which sets the state back to `ready` (lines 191,
206-209).  On any exception: show the error once, set the failure status,
and re-enable the button immediately (lines 194-198), again ending in
`ready`.  The two `datetime.now()` calls inside the two save helpers are the
parameters `ts1` and `ts2`; `result` is the outcome of the remote call. -/
def transcribe_audio (app : App) (ts1 ts2 : String) (duration : ℚ)
    (result : Except TranscribeError String) : TranscribeOutcome :=
  match result with
  | .ok text =>
    { app := { app with
        history := save_to_history app.history ts1 text duration,
        transactions := save_transaction app.transactions ts2 duration,
        state := .ready },
      errorsShown := [],
      statusUpdates := ["Transcription complete"] }
  | .error e =>
    { app := { app with state := .ready },
      errorsShown := [("Transcription Error", errMessage e)],
      statusUpdates := ["Transcription failed"] }

/-- `process_audio` (lines 164-169): concatenate the captured blocks
(`np.concatenate` raises on an empty list), compute
`duration = len(audio) / SAMPLE_RATE / 60`, persist the WAV file and call
`transcribe_audio` with that duration. -/
def process_audio (app : App) (ts1 ts2 : String)
    (result : Except TranscribeError String) :
    Except CaptureError TranscribeOutcome :=
  if app.audio_data = [] then .error .emptyCapture
  else
    let audio := app.audio_data.flatten
    let duration : ℚ := (audio.length : ℚ) / (SAMPLE_RATE : ℚ) / 60
    .ok (transcribe_audio app ts1 ts2 duration result)

/-- The ledger states passed through by the success path of
`transcribe_audio`, at its interruption points: before either write, after
the history write of line 183, and after the transaction write of line 184. -/
def ledger_write_steps (h : List HistoryEntry) (t : List TransactionEntry)
    (ts1 ts2 text : String) (d : ℚ) :
    List (List HistoryEntry × List TransactionEntry) :=
  [(h, t),
   (save_to_history h ts1 text d, t),
   (save_to_history h ts1 text d, save_transaction t ts2 d)]

end OldTk

/-! Helper lemmas shared by several claim theorems. -/

/-- Truncation toward zero moves a rational by strictly less than one. -/
theorem truncQ_sub_lt_one (q : ℚ) : |(truncQ q : ℚ) - q| < 1 := by
  unfold truncQ
  split
  · rename_i h
    rw [abs_sub_lt_iff]
    refine ⟨by have := Int.floor_le q; linarith, ?_⟩
    have := Int.lt_floor_add_one q
    linarith
  · rename_i h
    rw [abs_sub_lt_iff]
    refine ⟨?_, by have := Int.le_ceil q; linarith⟩
    have := Int.ceil_lt_add_one q
    linarith

/-- Truncation toward zero respects symmetric integer bounds. -/
theorem truncQ_bounds {q : ℚ} {c : ℤ} (hlo : -(c : ℚ) ≤ q) (hhi : q ≤ (c : ℚ)) :
    -c ≤ truncQ q ∧ truncQ q ≤ c := by
  have h1 : -c ≤ ⌊q⌋ := Int.le_floor.mpr (by push_cast [Int.cast_neg]; linarith)
  have h2 : ⌈q⌉ ≤ c := Int.ceil_le.mpr hhi
  have h3 : ⌊q⌋ ≤ ⌈q⌉ := Int.floor_le_ceil q
  unfold truncQ
  split <;> omega

/-- For samples in `[-1, 1]` the int16 wrap never fires: the encoder is
plain truncation of `x * 32767`. -/
theorem encodeSample_eq_trunc {x : ℚ} (h1 : -1 ≤ x) (h2 : x ≤ 1) :
    encodeSample x = truncQ (x * 32767) := by
  have hb : -(32767 : ℤ) ≤ truncQ (x * 32767) ∧ truncQ (x * 32767) ≤ (32767 : ℤ) :=
    truncQ_bounds (by push_cast; linarith) (by push_cast; linarith)
  unfold encodeSample toInt16
  omega

/-- Python `sum` over a projected field is the sum of the projections. -/
theorem foldl_add_eq (f : TransactionEntry → ℚ) (l : List TransactionEntry) (a : ℚ) :
    l.foldl (fun acc t => acc + f t) a = a + (l.map f).sum := by
  induction l generalizing a with
  | nil => simp
  | cons x xs ih => simp [ih]; ring

/-! Claim theorems. -/

/-- C4: `calculate_totals` returns the sum of the cost fields and the sum of
the duration fields of the full transaction collection, as a pure fold; on
the transactions `[{duration:1, cost:0.006}, {duration:2.5, cost:0.015}]` it
yields total cost `0.021` and total time `3.5`. -/
theorem totals_are_field_sums (transactions : List TransactionEntry) :
    calculate_totals transactions =
      ((transactions.map TransactionEntry.cost).sum,
       (transactions.map TransactionEntry.duration).sum) ∧
    calculate_totals
        [{ timestamp := "t1", duration := 1, cost := 6 / 1000 },
         { timestamp := "t2", duration := 5 / 2, cost := 15 / 1000 }]
      = (21 / 1000, 7 / 2) := by
  constructor
  · unfold calculate_totals
    rw [foldl_add_eq, foldl_add_eq]
    simp
  · unfold calculate_totals
    norm_num

/-- C5: the encoder is `int16(x * 32767)` with round-toward-zero truncation,
and decoding the stored 16-bit value back to float recovers the sample
within `1/32767`. -/
theorem quantization_roundtrip (x : ℚ) (h1 : -1 ≤ x) (h2 : x ≤ 1) :
    encodeSample x = truncQ (x * 32767) ∧
    |decodeSample (encodeSample x) - x| ≤ 1 / 32767 := by
  have he := encodeSample_eq_trunc h1 h2
  refine ⟨he, ?_⟩
  rw [he]
  unfold decodeSample
  have habs := truncQ_sub_lt_one (x * 32767)
  have key : ((truncQ (x * 32767) : ℚ)) / 32767 - x
      = ((truncQ (x * 32767) : ℚ) - x * 32767) / 32767 := by ring
  rw [key, abs_div]
  rw [show |(32767 : ℚ)| = 32767 by norm_num]
  exact div_le_div_of_nonneg_right habs.le (by norm_num) |>.trans (by norm_num)

/-- Witness for C5, at the concrete sample `x = 1/2`. -/
theorem quantization_roundtrip_witness :
    (-1 ≤ (1 / 2 : ℚ)) ∧ ((1 / 2 : ℚ) ≤ 1) ∧
    (encodeSample (1 / 2) = truncQ ((1 / 2) * 32767) ∧
     |decodeSample (encodeSample (1 / 2)) - (1 / 2)| ≤ 1 / 32767) :=
  ⟨by norm_num, by norm_num, quantization_roundtrip (1 / 2) (by norm_num) (by norm_num)⟩

/-- C10: for samples in `[-1, 1]` the quantized value lies in the symmetric
range `[-32767, 32767]`; the asymmetric extreme `-32768` is never produced. -/
theorem encode_range (x : ℚ) (h1 : -1 ≤ x) (h2 : x ≤ 1) :
    -32767 ≤ encodeSample x ∧ encodeSample x ≤ 32767 ∧ encodeSample x ≠ -32768 := by
  have he := encodeSample_eq_trunc h1 h2
  have hb : -(32767 : ℤ) ≤ truncQ (x * 32767) ∧ truncQ (x * 32767) ≤ (32767 : ℤ) :=
    truncQ_bounds (by push_cast; linarith) (by push_cast; linarith)
  rw [he]
  exact ⟨hb.1, hb.2, by omega⟩

/-- Witness for C10, at the concrete sample `x = -1`. -/
theorem encode_range_witness :
    (-1 ≤ (-1 : ℚ)) ∧ ((-1 : ℚ) ≤ 1) ∧
    (-32767 ≤ encodeSample (-1) ∧ encodeSample (-1) ≤ 32767 ∧
     encodeSample (-1) ≠ -32768) :=
  ⟨by norm_num, by norm_num, encode_range (-1) (by norm_num) (by norm_num)⟩

/-- C2: a successful transcription cycle appends exactly one history entry
and exactly one transaction entry, preserving all prior entries in order;
both carry the cycle duration and the transaction cost is
`duration * 0.006`. -/
theorem success_appends_matching_pair (app : OldTk.App) (ts1 ts2 text : String) (d : ℚ) :
    (OldTk.transcribe_audio app ts1 ts2 d (.ok text)).app.history
      = app.history ++ [{ timestamp := ts1, duration := some d, transcription := text }] ∧
    (OldTk.transcribe_audio app ts1 ts2 d (.ok text)).app.transactions
      = app.transactions ++ [{ timestamp := ts2, duration := d, cost := d * (6 / 1000) }] ∧
    (OldTk.transcribe_audio app ts1 ts2 d (.ok text)).errorsShown = [] :=
  ⟨rfl, rfl, rfl⟩

/-- C3: when the transcription call fails, neither ledger changes, the error
is published exactly once, the status shown is the momentary failure report,
and the controller ends the cycle back in the `ready` state. -/
theorem error_keeps_ledgers_ends_ready (app : OldTk.App) (ts1 ts2 : String)
    (d : ℚ) (e : TranscribeError) :
    (OldTk.transcribe_audio app ts1 ts2 d (.error e)).app.history = app.history ∧
    (OldTk.transcribe_audio app ts1 ts2 d (.error e)).app.transactions = app.transactions ∧
    (OldTk.transcribe_audio app ts1 ts2 d (.error e)).errorsShown.length = 1 ∧
    (OldTk.transcribe_audio app ts1 ts2 d (.error e)).app.state = .ready ∧
    (OldTk.transcribe_audio app ts1 ts2 d (.error e)).statusUpdates
      = ["Transcription failed"] :=
  ⟨rfl, rfl, rfl, rfl, rfl⟩

/-- C6: stopping a capture that collected zero sample blocks fails with the
empty-capture error in both variants, rather than producing a waveform or
succeeding. -/
theorem empty_capture_fails (startT endT : ℚ) (app : OldTk.App) (ts1 ts2 : String)
    (r : Except TranscribeError String) :
    Transcriber.stop_recording startT endT [] = .error .emptyCapture ∧
    OldTk.process_audio { app with audio_data := [] } ts1 ts2 r = .error .emptyCapture := by
  constructor
  · rfl
  · simp [OldTk.process_audio]

/-- C8: a stored history entry lacking the duration field renders without
failing and is displayed distinctly as `(Duration: N/A)` rather than with a
numeric value, wherever it sits in the collection. -/
theorem missing_duration_renders_na (h1 h2 : List HistoryEntry) (ts text : String) :
    update_history_display
        (h1 ++ { timestamp := ts, duration := none, transcription := text } :: h2)
      = h2.reverse.map render_entry
        ++ (ts ++ " " ++ "(Duration: N/A)" ++ ":\n" ++ text ++ "\n\n")
          :: h1.reverse.map render_entry := by
  unfold update_history_display
  rw [List.reverse_append, List.reverse_cons]
  simp [render_entry]

/-- C1 counterexample: in transcriber.py, a recording whose wall clock ran
from second 0 to second 120 while capturing a single one-sample block is
passed onward with duration `2` minutes, although
`L / sample_rate / 60 = 1 / 44100 / 60`. -/
theorem duration_wallclock_counterexample :
    Transcriber.stop_recording 0 120 [[1 / 2]]
      = .ok { duration := 2, samples := [16383] } ∧
    ((1 : ℚ) / (SAMPLE_RATE : ℚ) / 60) ≠ 2 := by
  constructor
  · have hfloor : ⌊(2⁻¹ : ℚ) * 32767⌋ = 16383 := by
      rw [show (2⁻¹ : ℚ) * 32767 = ((32767 : ℤ) : ℚ) / ((2 : ℕ) : ℚ) by push_cast; ring]
      rw [Rat.floor_intCast_div_natCast]
      decide
    have henc : encodeSample (2⁻¹ : ℚ) = 16383 := by
      unfold encodeSample truncQ toInt16
      rw [if_pos (by norm_num), hfloor]
      decide
    simp [Transcriber.stop_recording, henc]
    norm_num
  · norm_num [SAMPLE_RATE]

/-- C1 amended: in old_tkinter_transcriber.py the duration passed onward and
stored in the history entry equals `L / sample_rate / 60`; in transcriber.py
the duration passed onward is the wall-clock elapsed time
`(end - start) / 60` minutes, which need not equal `L / sample_rate / 60`. -/
theorem duration_amended (f : List ℚ) (fs : List (List ℚ)) (app : OldTk.App)
    (ts1 ts2 text : String) (startT endT : ℚ) :
    (OldTk.process_audio { app with audio_data := f :: fs } ts1 ts2 (.ok text)).map
        (fun out => out.app.history)
      = .ok (app.history ++
          [{ timestamp := ts1,
             duration := some (((f :: fs).flatten.length : ℚ) / (SAMPLE_RATE : ℚ) / 60),
             transcription := text }]) ∧
    (Transcriber.stop_recording startT endT (f :: fs)).map Transcriber.StopResult.duration
      = .ok ((endT - startT) / 60) := by
  constructor
  · simp [OldTk.process_audio, OldTk.transcribe_audio, save_to_history, Except.map]
  · simp [Transcriber.stop_recording, Except.map]

/-- C7: at most one capture/transcription cycle is in flight.  Any toggle
intent arriving while the controller is `processing` changes neither the
state, the capture buffer nor either ledger; and in the concrete trace
start → captured block → stop → second stop intent → completion, exactly one
history entry and one transaction entry are appended. -/
theorem at_most_one_cycle_in_flight (app : OldTk.App) (ad : List (List ℚ))
    (H : List HistoryEntry) (T : List TransactionEntry)
    (t1 t2 t3 : ℚ) (block : List ℚ) (ts1 ts2 text : String)
    (hp : app.state = .processing)
    (ht1 : 1 / 2 ≤ t1) (ht2 : 1 / 2 ≤ t2 - t1) :
    ((OldTk.toggle_recording t3 app).state = .processing ∧
     (OldTk.toggle_recording t3 app).audio_data = app.audio_data ∧
     (OldTk.toggle_recording t3 app).history = app.history ∧
     (OldTk.toggle_recording t3 app).transactions = app.transactions) ∧
    (OldTk.process_audio
        (OldTk.toggle_recording t3
          (OldTk.toggle_recording t2
            (OldTk.audio_callback
              (OldTk.toggle_recording t1
                { state := .ready, audio_data := ad, history := H,
                  transactions := T, last_click_time := 0 })
              block)))
        ts1 ts2 (.ok text)).map
        (fun out => (out.app.history, out.app.transactions, out.app.state))
      = .ok
          (H ++ [{ timestamp := ts1,
                   duration := some ((block.length : ℚ) / (SAMPLE_RATE : ℚ) / 60),
                   transcription := text }],
           T ++ [{ timestamp := ts2,
                   duration := (block.length : ℚ) / (SAMPLE_RATE : ℚ) / 60,
                   cost := (block.length : ℚ) / (SAMPLE_RATE : ℚ) / 60 * COST_PER_MINUTE }],
           .ready) := by
  constructor
  · obtain ⟨st, ad0, H0, T0, lc⟩ := app
    simp only at hp
    subst hp
    unfold OldTk.toggle_recording
    split
    · exact ⟨rfl, rfl, rfl, rfl⟩
    · exact ⟨rfl, rfl, rfl, rfl⟩
  · have e1 : OldTk.toggle_recording t1
        ({ state := .ready, audio_data := ad, history := H, transactions := T,
           last_click_time := 0 } : OldTk.App)
        = { state := .recording, audio_data := [], history := H, transactions := T,
            last_click_time := t1 } := by
      unfold OldTk.toggle_recording OldTk.start_recording OldTk.click_cooldown
      split
      · rename_i hc
        exfalso
        simp only at hc
        linarith
      · rfl
    have e2 : OldTk.audio_callback
        ({ state := .recording, audio_data := [], history := H, transactions := T,
           last_click_time := t1 } : OldTk.App) block
        = { state := .recording, audio_data := [block], history := H, transactions := T,
            last_click_time := t1 } := rfl
    have e3 : OldTk.toggle_recording t2
        ({ state := .recording, audio_data := [block], history := H, transactions := T,
           last_click_time := t1 } : OldTk.App)
        = { state := .processing, audio_data := [block], history := H, transactions := T,
            last_click_time := t2 } := by
      unfold OldTk.toggle_recording OldTk.stop_recording OldTk.click_cooldown
      split
      · rename_i hc
        exfalso
        simp only at hc
        linarith
      · rfl
    rw [e1, e2, e3]
    have key : ∀ a4 : OldTk.App,
        a4 = { state := .processing, audio_data := [block], history := H,
               transactions := T, last_click_time := t2 } ∨
        a4 = { state := .processing, audio_data := [block], history := H,
               transactions := T, last_click_time := t3 } →
        (OldTk.process_audio a4 ts1 ts2 (.ok text)).map
            (fun out => (out.app.history, out.app.transactions, out.app.state))
          = .ok
              (H ++ [{ timestamp := ts1,
                       duration := some ((block.length : ℚ) / (SAMPLE_RATE : ℚ) / 60),
                       transcription := text }],
               T ++ [{ timestamp := ts2,
                       duration := (block.length : ℚ) / (SAMPLE_RATE : ℚ) / 60,
                       cost := (block.length : ℚ) / (SAMPLE_RATE : ℚ) / 60
                                 * COST_PER_MINUTE }],
               .ready) := by
      rintro a4 (rfl | rfl) <;>
        simp [OldTk.process_audio, OldTk.transcribe_audio, save_to_history,
              save_transaction, Except.map]
    apply key
    unfold OldTk.toggle_recording OldTk.click_cooldown
    split
    · left; rfl
    · right; rfl

/-- Witness for C7, with a processing-state controller, click times 1, 2, 3
and a single captured sample. -/
theorem at_most_one_cycle_in_flight_witness :
    (({ state := .processing, audio_data := [], history := [], transactions := [],
        last_click_time := 0 } : OldTk.App).state = .processing) ∧
    ((1 : ℚ) / 2 ≤ 1) ∧ ((1 : ℚ) / 2 ≤ 2 - 1) ∧
    (((OldTk.toggle_recording 3
        { state := .processing, audio_data := [], history := [], transactions := [],
          last_click_time := 0 }).state = .processing ∧
      (OldTk.toggle_recording 3
        { state := .processing, audio_data := [], history := [], transactions := [],
          last_click_time := 0 }).audio_data
        = ({ state := .processing, audio_data := [], history := [], transactions := [],
             last_click_time := 0 } : OldTk.App).audio_data ∧
      (OldTk.toggle_recording 3
        { state := .processing, audio_data := [], history := [], transactions := [],
          last_click_time := 0 }).history
        = ({ state := .processing, audio_data := [], history := [], transactions := [],
             last_click_time := 0 } : OldTk.App).history ∧
      (OldTk.toggle_recording 3
        { state := .processing, audio_data := [], history := [], transactions := [],
          last_click_time := 0 }).transactions
        = ({ state := .processing, audio_data := [], history := [], transactions := [],
             last_click_time := 0 } : OldTk.App).transactions) ∧
     (OldTk.process_audio
        (OldTk.toggle_recording 3
          (OldTk.toggle_recording 2
            (OldTk.audio_callback
              (OldTk.toggle_recording 1
                { state := .ready, audio_data := [], history := [],
                  transactions := [], last_click_time := 0 })
              [0])))
        "a" "b" (.ok "hello")).map
        (fun out => (out.app.history, out.app.transactions, out.app.state))
      = .ok
          ([] ++ [{ timestamp := "a",
                    duration := some ((([(0 : ℚ)].length : ℕ) : ℚ) / (SAMPLE_RATE : ℚ) / 60),
                    transcription := "hello" }],
           [] ++ [{ timestamp := "b",
                    duration := ((([(0 : ℚ)].length : ℕ) : ℚ) / (SAMPLE_RATE : ℚ) / 60),
                    cost := ((([(0 : ℚ)].length : ℕ) : ℚ) / (SAMPLE_RATE : ℚ) / 60)
                              * COST_PER_MINUTE }],
           .ready)) :=
  ⟨rfl, by norm_num, by norm_num,
   at_most_one_cycle_in_flight
     { state := .processing, audio_data := [], history := [], transactions := [],
       last_click_time := 0 } [] [] [] 1 2 3 [0] "a" "b" "hello"
     rfl (by norm_num) (by norm_num)⟩

/-- C9: within the success path, the history write happens strictly before
the transaction write.  Among the interruption states of the two-write
sequence the middle one carries an orphan history entry, the final one
agrees with the full `transcribe_audio` effect, and any state whose
transaction ledger has moved already carries the appended history entry —
an orphan transaction entry is impossible. -/
theorem history_write_precedes_transaction_write (app : OldTk.App)
    (ts1 ts2 text : String) (d : ℚ)
    (p : List HistoryEntry × List TransactionEntry)
    (hmem : p ∈ OldTk.ledger_write_steps app.history app.transactions ts1 ts2 text d) :
    (OldTk.ledger_write_steps app.history app.transactions ts1 ts2 text d)[1]?
      = some (app.history
                ++ [{ timestamp := ts1, duration := some d, transcription := text }],
              app.transactions) ∧
    (OldTk.ledger_write_steps app.history app.transactions ts1 ts2 text d)[2]?
      = some ((OldTk.transcribe_audio app ts1 ts2 d (.ok text)).app.history,
              (OldTk.transcribe_audio app ts1 ts2 d (.ok text)).app.transactions) ∧
    (p.2 ≠ app.transactions →
      p.1 = app.history
              ++ [{ timestamp := ts1, duration := some d, transcription := text }]) := by
  refine ⟨rfl, rfl, ?_⟩
  simp only [OldTk.ledger_write_steps, List.mem_cons, List.not_mem_nil, or_false] at hmem
  rcases hmem with h | h | h
  · subst h; intro hne; exact absurd rfl hne
  · subst h; intro hne; exact absurd rfl hne
  · subst h; intro hne; rfl

/-- Witness for C9, on initially empty ledgers with the middle interruption
state as the member. -/
theorem history_write_precedes_transaction_write_witness :
    ((([{ timestamp := "a", duration := some (1 : ℚ), transcription := "x" }],
       ([] : List TransactionEntry)) : List HistoryEntry × List TransactionEntry)
        ∈ OldTk.ledger_write_steps [] [] "a" "b" "x" 1) ∧
    ((OldTk.ledger_write_steps ([] : List HistoryEntry) ([] : List TransactionEntry)
        "a" "b" "x" 1)[1]?
      = some ([] ++ [{ timestamp := "a", duration := some 1, transcription := "x" }], []) ∧
    (OldTk.ledger_write_steps ([] : List HistoryEntry) ([] : List TransactionEntry)
        "a" "b" "x" 1)[2]?
      = some ((OldTk.transcribe_audio
                 { state := .ready, audio_data := [], history := [], transactions := [],
                   last_click_time := 0 } "a" "b" 1 (.ok "x")).app.history,
              (OldTk.transcribe_audio
                 { state := .ready, audio_data := [], history := [], transactions := [],
                   last_click_time := 0 } "a" "b" 1 (.ok "x")).app.transactions) ∧
    (((([{ timestamp := "a", duration := some (1 : ℚ), transcription := "x" }],
        ([] : List TransactionEntry)) : List HistoryEntry × List TransactionEntry)).2 ≠ [] →
      ((([{ timestamp := "a", duration := some (1 : ℚ), transcription := "x" }],
        ([] : List TransactionEntry)) : List HistoryEntry × List TransactionEntry)).1
        = [] ++ [{ timestamp := "a", duration := some 1, transcription := "x" }])) :=
  ⟨by simp [OldTk.ledger_write_steps, save_to_history],
   history_write_precedes_transaction_write
     { state := .ready, audio_data := [], history := [], transactions := [],
       last_click_time := 0 } "a" "b" "x" 1
     (([{ timestamp := "a", duration := some (1 : ℚ), transcription := "x" }],
       ([] : List TransactionEntry)) : List HistoryEntry × List TransactionEntry)
     (by simp [OldTk.ledger_write_steps, save_to_history])⟩

end SpeechRecorder
